import Mathlib

/-!
Verification development for the talent-sourcing MVP repository
(src/core_logic.py, src/api_server.py, src/app.py).

The external collaborators (OpenAI embedding API, Anthropic chat API,
ChromaDB vector store, JSON parser) are modelled as oracle functions
bundled in an `Env`; the repository's own control flow is embedded
faithfully, statement by statement. External-call accounting (how many
embedding calls and model calls a run performs, and with which
arguments the retrieval tool is executed) is tracked in a `Trace`.
-/

namespace TalentMVP

/-- A record stored in the ChromaDB collection: the document field holds the
full raw resume text (core_logic.py lines 147, 161-166), the remaining
fields are the flat string metadata built at insert time. -/
structure StoredRecord where
  id : String
  document : String
  name : String
  job_title : String
  level : String
  industry : String
  skills : String
deriving DecidableEq

/-- A named ChromaDB collection. -/
structure Collection where
  name : String
  records : List StoredRecord
deriving DecidableEq

/-- `collection.count()`. -/
def Collection.count (c : Collection) : Nat := c.records.length

/-- The candidate dictionary built by `resume_search_tool`
(core_logic.py lines 218-226). -/
structure CandidateData where
  id : String
  name : String
  job_title : String
  level : String
  industry : String
  skills : String
  raw_resume_text : String
deriving DecidableEq

/-- The three shapes `resume_search_tool` can return (core_logic.py lines
183, 189, 192, 197, 229, 231): a one-element error list, the one-element
"No candidates found matching the search criteria." message list, or the
candidate list. -/
inductive ToolOutput where
  | errorOut (msg : String)
  | noCandidatesMsg
  | candidates (cs : List CandidateData)
deriving DecidableEq

/-- External-call accounting for one request: number of OpenAI embedding
calls, number of Anthropic model calls, the (query, num_results) argument
pairs passed to `resume_search_tool`, the n_results values passed to
`collection.query`, and the tool output embedded in the second call's
messages (core_logic.py lines 319-337), if a second call was prepared. -/
structure Trace where
  embedCalls : Nat
  llmCalls : Nat
  toolCalls : List (Option String × Int)
  chromaQueryCalls : List Int
  secondCallToolOutput : Option ToolOutput
deriving DecidableEq

/-- The all-zero trace at the start of a request. -/
def Trace.empty : Trace := ⟨0, 0, [], [], none⟩

/-- Record one embedding call (core_logic.py line 76). -/
def addEmbedCall (t : Trace) : Trace :=
  ⟨t.embedCalls + 1, t.llmCalls, t.toolCalls, t.chromaQueryCalls, t.secondCallToolOutput⟩

/-- Record one `collection.query` call together with the n_results bound
passed to it (core_logic.py lines 199-203). -/
def addChromaCall (t : Trace) (n : Int) : Trace :=
  ⟨t.embedCalls, t.llmCalls, t.toolCalls, t.chromaQueryCalls ++ [n], t.secondCallToolOutput⟩

/-- The first Anthropic response, by stop_reason, as the orchestrator
branches on it (core_logic.py lines 303-306, 366, 369): a tool-use block
(id, tool name, and the model-supplied `query` / `num_results` arguments,
either of which may be absent from `tool_input`), a plain end_turn text,
or any other stop reason. -/
inductive FirstResponse where
  | toolUseResp (tuId : String) (toolName : String)
      (inputQuery : Option String) (inputNumResults : Option Int)
  | endTurn (text : String)
  | otherStop (reason : String)
deriving DecidableEq

/-- The four dictionary shapes `_perform_claude_search_with_tool_internal`
returns (core_logic.py lines 354, 368, 359, and the plain error returns):
success with `analysis_data`, success with only a `message` key, a plain
error with a `message`, and the malformed-JSON error additionally carrying
`raw_llm_output`. -/
inductive SearchResult (J : Type) where
  | successAnalysis (analysis_data : J)
  | successMessage (message : String)
  | errorMsg (message : String)
  | errorMalformedJson (message : String) (raw_llm_output : String)
deriving DecidableEq

/-- The external collaborators of one request, as oracles.
`V` is the opaque type of embedding vectors, `J` the opaque type of parsed
JSON values. `collection` is what `chroma_client.get_collection("all_resumes")`
yields (`none` = the access raises). `embed` is the OpenAI embedding call
(`none` = failure, mirroring `_get_embedding_internal` returning None).
`chromaQuery` is ChromaDB's nearest-neighbour search given a vector and the
n_results bound. `firstResponse` / `secondResponse` are the two Anthropic
calls (`none` = the call raises). `parseJson` is `json.loads`
(`none` = json.JSONDecodeError). -/
structure Env (V J : Type) where
  collection : Option Collection
  embed : String → Option V
  chromaQuery : V → Int → List StoredRecord
  firstResponse : Option FirstResponse
  secondResponse : Option String
  parseJson : String → Option J

/-- Build the candidate dictionary from a retrieved record
(core_logic.py lines 214-226): the metadata fields are copied and
`raw_resume_text` is the ChromaDB document field, taken as is. -/
def recordToCandidate (r : StoredRecord) : CandidateData :=
  ⟨r.id, r.name, r.job_title, r.level, r.industry, r.skills, r.document⟩

/-- `resume_search_tool(query, num_results)` (core_logic.py lines 174-231).
The `query` argument is `Option String` because the orchestrator passes
`tool_input.get("query")`, which is None when the model omitted the field;
Python's `if not query:` catches both None and the empty string.
Order of effects follows the source: empty-query check, collection access
and emptiness check, embedding call, `collection.query`, then either the
no-candidates message or the candidate list. -/
def resume_search_tool {V J : Type} (env : Env V J) (query : Option String)
    (num_results : Int) (t : Trace) : ToolOutput × Trace :=
  match query with
  | none => (ToolOutput.errorOut "Query cannot be empty for resume search.", t)
  | some q =>
    if q = "" then
      (ToolOutput.errorOut "Query cannot be empty for resume search.", t)
    else
      match env.collection with
      | none => (ToolOutput.errorOut "Database access error", t)
      | some coll =>
        if coll.count = 0 then
          (ToolOutput.errorOut "Resume database is empty. Initialize it first.", t)
        else
          match env.embed q with
          | none =>
            (ToolOutput.errorOut "Failed to generate embedding for query.", addEmbedCall t)
          | some v =>
            if (env.chromaQuery v num_results).isEmpty then
              (ToolOutput.noCandidatesMsg, addChromaCall (addEmbedCall t) num_results)
            else
              (ToolOutput.candidates ((env.chromaQuery v num_results).map recordToCandidate),
               addChromaCall (addEmbedCall t) num_results)

/-- The characters of the opening markdown fence checked by the source,
`"```json"` (core_logic.py line 350). -/
def fenceOpenChars : List Char := "```json".data

/-- The characters of the closing markdown fence, `"```"`. -/
def fenceCloseChars : List Char := "```".data

/-- Remove the last `n` characters. -/
def dropRightChars (l : List Char) (n : Nat) : List Char := l.take (l.length - n)

/-- Fence stripping before JSON parsing (core_logic.py lines 350-351):
when the text starts with the opening fence and ends with the closing
fence, slice off both (Python `json_string[7:-3]`) and strip whitespace;
otherwise the text is parsed unchanged. -/
def stripJsonFence (s : String) : String :=
  if fenceOpenChars.isPrefixOf s.data && fenceCloseChars.isSuffixOf s.data then
    (String.mk (dropRightChars (s.data.drop fenceOpenChars.length) fenceCloseChars.length)).trim
  else s

/-- `_perform_claude_search_with_tool_internal(user_query,
num_profiles_to_retrieve)` (core_logic.py lines 255-371).
`user_query` forms the initial message (lines 257-262); no property here
depends on the message text, only on the responses, so it is threaded but
unused. The tool branch computes
`min(tool_input.get("num_results", 5), num_profiles_to_retrieve)`
(line 311), runs the tool, and unconditionally issues the second model
call with the serialized tool output (lines 319-346); there is no
special-casing of any tool output shape before that call. -/
def perform_claude_search_with_tool_internal {V J : Type} (env : Env V J)
    (user_query : String) (num_profiles_to_retrieve : Int) : SearchResult J × Trace :=
  match env.firstResponse with
  | none =>
    (SearchResult.errorMsg "Error initiating conversation with Claude", ⟨0, 1, [], [], none⟩)
  | some (FirstResponse.toolUseResp _tuId toolName inputQuery inputNumResults) =>
    if toolName = "resume_search_tool" then
      let requested_num_results : Int := min (inputNumResults.getD 5) num_profiles_to_retrieve
      let r1 := resume_search_tool env inputQuery requested_num_results
        ⟨0, 1, [(inputQuery, requested_num_results)], [], none⟩
      let t2 : Trace := ⟨r1.2.embedCalls, r1.2.llmCalls + 1, r1.2.toolCalls,
        r1.2.chromaQueryCalls, some r1.1⟩
      match env.secondResponse with
      | none =>
        (SearchResult.errorMsg "Error getting final response from Claude after tool use", t2)
      | some text =>
        match env.parseJson (stripJsonFence text) with
        | some parsed => (SearchResult.successAnalysis parsed, t2)
        | none =>
          (SearchResult.errorMalformedJson "LLM response was not valid JSON." text, t2)
    else
      (SearchResult.errorMsg ("Claude requested an unknown tool: " ++ toolName),
       ⟨0, 1, [], [], none⟩)
  | some (FirstResponse.endTurn text) => (SearchResult.successMessage text, ⟨0, 1, [], [], none⟩)
  | some (FirstResponse.otherStop _reason) =>
    (SearchResult.errorMsg "Unexpected response from Claude.", ⟨0, 1, [], [], none⟩)

/-- The request body of POST /v1/search_candidates (api_server.py lines
67-69): `query : str` and `num_results : int = 7`, a plain pydantic int
with no bounds declared. -/
structure SearchRequest where
  query : String
  num_results : Int
deriving DecidableEq

/-- What the HTTP handler produces: a 200 response wrapping `analysis_data`,
or an HTTPException status code. -/
inductive ApiOutcome (J : Type) where
  | ok (analysis_data : J)
  | httpError (code : Nat)
deriving DecidableEq

/-- The `/v1/search_candidates` handler (api_server.py lines 110-144),
after authentication: check the collection is reachable and non-empty
(500 otherwise, lines 121-126), run the orchestrator with
`num_profiles_to_retrieve=request.num_results` passed through unmodified
(lines 129-132), and return 200 only when the result has
`status == "success"` **and** an `analysis_data` key (lines 134-138);
every other orchestrator result — including success-with-message-only —
is converted to an HTTPException 500 (lines 139-144). HTTP detail strings
are abstracted to the status code. -/
def search_candidates {V J : Type} (env : Env V J) (request : SearchRequest) :
    ApiOutcome J × Trace :=
  match env.collection with
  | none => (ApiOutcome.httpError 500, Trace.empty)
  | some coll =>
    if coll.count = 0 then (ApiOutcome.httpError 500, Trace.empty)
    else
      let out := perform_claude_search_with_tool_internal env request.query request.num_results
      match out.1 with
      | SearchResult.successAnalysis parsed => (ApiOutcome.ok parsed, out.2)
      | _ => (ApiOutcome.httpError 500, out.2)

/-- The ChromaDB client handle: the set of collections of the backend. -/
structure ChromaClient where
  collections : List Collection
deriving DecidableEq

/-- `chroma_client.count_collections()` (core_logic.py line 101). -/
def ChromaClient.countCollections (c : ChromaClient) : Nat := c.collections.length

/-- `chroma_client.get_collection(name=...)`: `none` models the raised
ValueError when the collection does not exist. -/
def ChromaClient.getCollection (c : ChromaClient) (n : String) : Option Collection :=
  c.collections.find? (fun coll => coll.name == n)

/-- `chroma_client.get_or_create_collection(name=...)`: returns the
existing collection, or adds (and returns) a fresh empty one. -/
def ChromaClient.getOrCreateCollection (c : ChromaClient) (n : String) :
    ChromaClient × Collection :=
  match c.collections.find? (fun coll => coll.name == n) with
  | some coll => (c, coll)
  | none => (⟨c.collections ++ [⟨n, []⟩]⟩, ⟨n, []⟩)

/-- `COLLECTION_NAME = "all_resumes"` (core_logic.py line 68). -/
def COLLECTION_NAME : String := "all_resumes"

/-- One entry of `resumes_data` as produced by `generate_fake_resume_data`
(core_logic.py lines 436-444); every generated entry carries an `id` and a
`raw_text`, so the `resume.get("id", uuid4())` default never fires. -/
structure ResumeData where
  id : String
  name : String
  job_title : String
  industry : String
  level : String
  skills : List String
  raw_text : String
deriving DecidableEq

/-- The outcome of a Python call: a value, or a propagated exception
rendered as a message string. -/
inductive PyResult (α : Type) where
  | ok (a : α)
  | raised (exc : String)
deriving DecidableEq

/-- The message of a Python NameError for the given name. -/
def nameErrorMsg (n : String) : String := "NameError: name " ++ n ++ " is not defined"

/-- The first name of `refs` (in evaluation order) that is not bound in
`scope` — the name whose lookup raises NameError, if any. -/
def firstUndefined (scope refs : List String) : Option String :=
  refs.find? (fun r => !(scope.contains r))

/-- Names bound at core_logic.py module top level before the ChromaDB
setup block at lines 59-66 runs: the imports (lines 1-8), the three
global placeholders (lines 13-15), the `initialize_api_clients` function
(line 19), and the `print` builtin. -/
def coreLogicTopScope : List String :=
  ["print", "json", "os", "uuid", "chromadb", "OpenAI", "Anthropic", "random",
   "global_client_openai", "global_client_anthropic", "global_mock_api_key",
   "initialize_api_clients"]

/-- Names the module would have bound at top level by the time
`initialize_database` runs, had the import succeeded (all imports,
globals, and module functions of core_logic.py, plus the builtins the
function body uses). Neither `DATABASE_DIR` nor `metadata` is assigned
anywhere in the module. -/
def coreLogicModuleScope : List String :=
  coreLogicTopScope ++
  ["chroma_client", "collection_check_startup", "COLLECTION_NAME",
   "_get_embedding_internal", "get_embedding", "initialize_database",
   "resume_search_tool", "resume_search_tool_schema",
   "_perform_claude_search_with_tool_internal", "perform_claude_search_with_tool",
   "generate_fake_resume_data", "len", "str", "open", "min", "enumerate",
   "list", "dict", "range"]

/-- Local names bound inside `initialize_database` before the failing
statement at core_logic.py line 115 runs: the parameter (line 90), the
names the populated-check try block may bind (lines 100-106), and
`resumes_data` (line 110). -/
def initDbLocalsAtLine115 : List String :=
  ["num_resumes", "collection_test", "e", "resumes_data"]

/-- Names referenced, in evaluation order, by the statement at
core_logic.py line 115,
`raw_resumes_dir = os.path.join(DATABASE_DIR, "raw_resumes")`:
`os`, then `DATABASE_DIR` — which is assigned nowhere in the module. -/
def rawResumesDirRefs : List String := ["os", "DATABASE_DIR"]

/-- Evaluating the right-hand side of line 115: the first unbound name,
if any, raises NameError. The statement sits outside every try block,
between the populated-check and the per-resume loop. -/
def rawResumesDirStep : Option String :=
  firstUndefined (coreLogicModuleScope ++ initDbLocalsAtLine115) rawResumesDirRefs

/-- Local names that would be bound inside `initialize_database` by the
time the metadata dictionary at core_logic.py lines 148-155 is built,
had execution reached it: the names of `initDbLocalsAtLine115`, the
accumulators (lines 118-121), and the loop variable and per-iteration
locals (lines 125-144). `raw_resumes_dir` is absent: its assignment is
the line-115 statement, which raises instead of binding it. -/
def initDbLocals : List String :=
  initDbLocalsAtLine115 ++
  ["docs_to_add", "metadatas_to_add", "ids_to_add", "embeddings_to_add",
   "resume", "resume_id", "raw_text", "embedding", "resume_file_path", "f",
   "collection"]

/-- Names referenced, in evaluation order, by the dictionary literal at
core_logic.py lines 148-155: `resume_id`, then `resume` (for
`resume.get("name", ...)`), then `metadata` (for
`metadata.get("job_title", ...)` and the following entries). -/
def metadataDictRefs : List String := ["resume_id", "resume", "metadata"]

/-- The flat metadata dictionary appended to `metadatas_to_add`. -/
structure MetadataEntry where
  resume_id : String
  name : String
  job_title : String
  level : String
  industry : String
  skills : String
deriving DecidableEq

/-- Building the metadata dictionary for one resume (core_logic.py lines
148-155). Evaluating the dictionary literal resolves the names in
`metadataDictRefs` against the function scope; the first unbound one
raises NameError. The `none` branch is unreachable because `metadata` is
bound nowhere (proved below); its field values are placeholders. -/
def buildMetadataEntry (resume : ResumeData) : PyResult MetadataEntry :=
  match firstUndefined (coreLogicModuleScope ++ initDbLocals) metadataDictRefs with
  | some n => PyResult.raised (nameErrorMsg n)
  | none => PyResult.ok ⟨resume.id, resume.name, "N/A", "N/A", "N/A", ""⟩

/-- The state of the `initialize_database` loop (core_logic.py lines
118-157) when it finishes or aborts: a propagated exception if any, the
four accumulator lists, and the external-call trace. -/
structure LoopOut (V : Type) where
  exc : Option String
  docs : List String
  metas : List MetadataEntry
  ids : List String
  embs : List V
  trace : Trace
deriving DecidableEq

/-- The per-resume loop of `initialize_database` (core_logic.py lines
125-157), reached only if the line-115 statement had succeeded: skip
entries with empty `raw_text` (lines 129-131), call the embedding API
and skip on failure (lines 133-136), attempt the local file write
(lines 139-144, wrapped in try/except — no effect on the outcome,
omitted), then append to the four accumulators; building the metadata
dictionary can raise, which aborts the whole call. -/
def initDbLoop {V : Type} (embed : String → Option V) :
    List ResumeData → Trace → LoopOut V
  | [], t => ⟨none, [], [], [], [], t⟩
  | resume :: rest, t =>
    if resume.raw_text = "" then initDbLoop embed rest t
    else
      match embed resume.raw_text with
      | none => initDbLoop embed rest (addEmbedCall t)
      | some v =>
        match buildMetadataEntry resume with
        | PyResult.raised e => ⟨some e, [], [], [], [], addEmbedCall t⟩
        | PyResult.ok m =>
          let out := initDbLoop embed rest (addEmbedCall t)
          match out.exc with
          | some e2 => ⟨some e2, [], [], [], [], out.trace⟩
          | none =>
            ⟨none, resume.raw_text :: out.docs, m :: out.metas,
             resume.id :: out.ids, v :: out.embs, out.trace⟩

/-- Zip the accumulator lists back into stored records, as
`collection.add(embeddings=..., documents=..., metadatas=..., ids=...)`
associates them positionally (core_logic.py lines 161-166). -/
def buildRecords : List String → List String → List MetadataEntry → List StoredRecord
  | id :: ids, doc :: docs, m :: ms =>
    ⟨id, doc, m.name, m.job_title, m.level, m.industry, m.skills⟩ ::
      buildRecords ids docs ms
  | _, _, _ => []

/-- `collection.add(...)` on the named collection: append the new records. -/
def ChromaClient.addToCollection (c : ChromaClient) (n : String)
    (ids : List String) (docs : List String) (metas : List MetadataEntry) : ChromaClient :=
  ⟨c.collections.map (fun coll =>
    if coll.name = n then ⟨coll.name, coll.records ++ buildRecords ids docs metas⟩
    else coll)⟩

/-- The already-populated check of `initialize_database` (core_logic.py
lines 100-105): any collections exist, and the `all_resumes` collection
is non-empty. (The surrounding try/except only matters for store
exceptions, which this model's total store operations never raise.) -/
def skipInit (client : ChromaClient) : Bool :=
  if client.countCollections > 0 then
    if (client.getOrCreateCollection COLLECTION_NAME).2.count > 0 then true else false
  else false

/-- The client after the check ran: `get_or_create_collection` may have
created an empty `all_resumes` collection as a side effect. -/
def clientAfterCheck (client : ChromaClient) : ChromaClient :=
  if client.countCollections > 0 then (client.getOrCreateCollection COLLECTION_NAME).1
  else client

/-- The result of `initialize_database`: a propagated exception if any,
the client (store) state afterwards, and the external-call trace. -/
structure InitDbOutcome where
  exc : Option String
  client : ChromaClient
  trace : Trace
deriving DecidableEq

/-- `initialize_database` (core_logic.py lines 90-169), taking the
`resumes_data` list (the output of `generate_fake_resume_data`, whose
randomness is external) as input: return immediately when the persistent
backend is already populated (lines 100-105); otherwise execute the
unprotected line-115 statement
`raw_resumes_dir = os.path.join(DATABASE_DIR, "raw_resumes")` — whose
name resolution raises for the first unbound name — and only if that
succeeds run the per-resume loop and, if it completes with a non-empty
`ids_to_add`, add everything to the `all_resumes` collection
(lines 159-166). -/
def initDatabase {V : Type} (client : ChromaClient) (embed : String → Option V)
    (resumes_data : List ResumeData) : InitDbOutcome :=
  if skipInit client then ⟨none, clientAfterCheck client, Trace.empty⟩
  else
    match rawResumesDirStep with
    | some n => ⟨some (nameErrorMsg n), clientAfterCheck client, Trace.empty⟩
    | none =>
      let out := initDbLoop embed resumes_data Trace.empty
      match out.exc with
      | some e => ⟨some e, clientAfterCheck client, out.trace⟩
      | none =>
        if out.ids.isEmpty then ⟨none, clientAfterCheck client, out.trace⟩
        else
          let p := (clientAfterCheck client).getOrCreateCollection COLLECTION_NAME
          ⟨none, p.1.addToCollection COLLECTION_NAME out.ids out.docs out.metas, out.trace⟩

/-- A Python statement, for the module-initialization model: an
assignment evaluating the given name references in order (with a flag
for a right-hand side whose external call raises), or an expression
statement. -/
inductive PyStmt where
  | assignStmt (target : String) (refs : List String) (externRaises : Bool)
  | exprStmt (refs : List String)
deriving DecidableEq

/-- Run one statement: resolve each referenced name against the scope in
order — the first unbound one raises NameError; an assignment whose
external call raises propagates that exception; otherwise an assignment
binds its target. -/
def runStmt (scope : List String) : PyStmt → Except String (List String)
  | PyStmt.assignStmt tgt refs ext =>
    match firstUndefined scope refs with
    | some n => Except.error (nameErrorMsg n)
    | none => if ext then Except.error "ExternalError" else Except.ok (tgt :: scope)
  | PyStmt.exprStmt refs =>
    match firstUndefined scope refs with
    | some n => Except.error (nameErrorMsg n)
    | none => Except.ok scope

/-- Run statements in sequence; the first exception aborts the rest. -/
def runStmts (scope : List String) : List PyStmt → Except String (List String)
  | [] => Except.ok scope
  | s :: rest =>
    match runStmt scope s with
    | Except.error e => Except.error e
    | Except.ok scope2 => runStmts scope2 rest

/-- The body of the `try:` block at core_logic.py lines 59-62:
`chroma_client = chromadb.Client()` (whose external call may raise, the
flag), then `collection_check_startup =
chroma_client.get_or_create_collection(name=COLLECTION_NAME)` — note
`COLLECTION_NAME` is only assigned at line 68, after this block — then
the debug print referencing both. -/
def chromaSetupTryBody (clientCallRaises : Bool) : List PyStmt :=
  [PyStmt.assignStmt "chroma_client" ["chromadb"] clientCallRaises,
   PyStmt.assignStmt "collection_check_startup" ["chroma_client", "COLLECTION_NAME"] false,
   PyStmt.exprStmt ["print", "COLLECTION_NAME", "collection_check_startup"]]

/-- The body of the `except Exception as e:` handler at core_logic.py
lines 63-66: two prints, then `chroma_client =
chromadb.PersistentClient(path=os.path.join(DATABASE_DIR, "chroma_db"))`
— `DATABASE_DIR` is assigned nowhere in the module. -/
def chromaSetupExceptBody : List PyStmt :=
  [PyStmt.exprStmt ["print", "e"],
   PyStmt.exprStmt ["print"],
   PyStmt.assignStmt "chroma_client" ["chromadb", "os", "DATABASE_DIR"] false]

/-- The module-level ChromaDB setup of core_logic.py (lines 59-66), run
at import time: execute the try body against the names bound so far; on
any exception, bind `e` and execute the handler; an exception escaping
the handler propagates out of the import. -/
def chromaSetup (clientCallRaises : Bool) : Except String (List String) :=
  match runStmts coreLogicTopScope (chromaSetupTryBody clientCallRaises) with
  | Except.ok scope2 => Except.ok scope2
  | Except.error _e => runStmts ("e" :: coreLogicTopScope) chromaSetupExceptBody

/-- The tool invocation the orchestrator's tool branch executes: the tool
run on the model-supplied query with the clamped bound, starting from the
trace holding the first model call and the recorded tool invocation. -/
def toolBranchRun {V J : Type} (env : Env V J) (q : Option String) (n : Option Int)
    (limit : Int) : ToolOutput × Trace :=
  resume_search_tool env q (min (n.getD 5) limit)
    ⟨0, 1, [(q, min (n.getD 5) limit)], [], none⟩

/-- The trace a tool-branch run of the orchestrator ends with. -/
def toolBranchTrace {V J : Type} (env : Env V J) (q : Option String) (n : Option Int)
    (limit : Int) : Trace :=
  ⟨(toolBranchRun env q n limit).2.embedCalls, (toolBranchRun env q n limit).2.llmCalls + 1,
   (toolBranchRun env q n limit).2.toolCalls, (toolBranchRun env q n limit).2.chromaQueryCalls,
   some (toolBranchRun env q n limit).1⟩

/-! ### Concrete fixtures for witnesses and counterexamples -/

/-- A stored fixture record. -/
def recAlice : StoredRecord :=
  ⟨"dev-001", "Name: Alice Anderson. Senior software engineer, Python and AWS.",
   "Alice Anderson", "Software Engineer", "Senior", "Tech", "Python, AWS"⟩

/-- The populated `all_resumes` collection fixture. -/
def collMain : Collection := ⟨"all_resumes", [recAlice]⟩

/-- A concrete environment where the model requests the tool with
num_results 12 against a caller limit that will be 5. -/
def envC1 : Env Nat Nat :=
  ⟨some collMain, fun _ => some 0, fun _ _ => [recAlice],
   some (FirstResponse.toolUseResp "tu-1" "resume_search_tool" (some "senior engineer") (some 12)),
   some "plain text", fun _ => some 1⟩

/-- A concrete environment where ChromaDB finds nothing and the second
response is not JSON. -/
def envC2 : Env Nat Nat :=
  ⟨some collMain, fun _ => some 0, fun _ _ => [],
   some (FirstResponse.toolUseResp "tu-2" "resume_search_tool" (some "rust developer") none),
   some "There are no matches.", fun _ => none⟩

/-- A concrete environment whose second response is fenced invalid JSON. -/
def envC3 : Env Nat Nat :=
  ⟨some collMain, fun _ => some 0, fun _ _ => [recAlice],
   some (FirstResponse.toolUseResp "tu-3" "resume_search_tool" (some "senior") none),
   some "```json this is not valid json ```", fun _ => none⟩

/-- A concrete environment whose first response ends the turn with plain
text and no tool request. -/
def envC4 : Env Nat Nat :=
  ⟨some collMain, fun _ => some 0, fun _ _ => [recAlice],
   some (FirstResponse.endTurn "General hiring advice; no search was needed."),
   none, fun _ => none⟩

/-- A 2000-character stored resume text. -/
def longText : String := String.mk (List.replicate 2000 'a')

/-- A stored record whose document exceeds the claimed 1500-character
budget. -/
def recLong : StoredRecord :=
  ⟨"dev-002", longText, "Bob Bannon", "Software Engineer", "Mid", "SaaS", "Java"⟩

/-- A concrete environment retrieving the over-long record. -/
def envC5 : Env Nat Nat :=
  ⟨some ⟨"all_resumes", [recLong]⟩, fun _ => some 0, fun _ _ => [recLong],
   some (FirstResponse.toolUseResp "tu-5" "resume_search_tool" (some "java developer") none),
   some "ok", fun _ => some 3⟩

/-- A concrete environment for an empty-query request: the model echoes
the empty query into its tool invocation. -/
def envC6 : Env Nat Nat :=
  ⟨some collMain, fun _ => some 0, fun _ _ => [recAlice],
   some (FirstResponse.toolUseResp "tu-6" "resume_search_tool" (some "") none),
   some "the tool reported an empty query", fun _ => none⟩

/-- A concrete environment where the caller asks for 100 results and the
model requests 100. -/
def envC7 : Env Nat Nat :=
  ⟨some collMain, fun _ => some 0, fun _ _ => [recAlice],
   some (FirstResponse.toolUseResp "tu-7" "resume_search_tool" (some "any role") (some 100)),
   some "ok", fun _ => some 2⟩

/-- Fixture entry of `resumes_data`. -/
def resumeAlice : ResumeData :=
  ⟨"dev-001", "Alice Anderson", "Software Engineer", "Tech", "Senior", ["Python", "AWS"],
   "Name: Alice Anderson. Senior software engineer."⟩

/-- A client whose `all_resumes` collection already holds `recAlice`. -/
def clientC8 : ChromaClient := ⟨[collMain]⟩

/-- A client whose `all_resumes` collection exists but is empty. -/
def clientC10 : ChromaClient := ⟨[⟨"all_resumes", []⟩]⟩

/-! ### Helper lemmas -/

/-- The retrieval tool never records tool invocations or model calls of
its own: those trace fields pass through unchanged. -/
theorem resume_search_tool_trace {V J : Type} (env : Env V J) (query : Option String)
    (nr : Int) (t : Trace) :
    (resume_search_tool env query nr t).2.toolCalls = t.toolCalls ∧
    (resume_search_tool env query nr t).2.llmCalls = t.llmCalls ∧
    (resume_search_tool env query nr t).2.secondCallToolOutput = t.secondCallToolOutput := by
  unfold resume_search_tool
  cases query with
  | none => exact ⟨rfl, rfl, rfl⟩
  | some q =>
    by_cases hq : q = ""
    · simp [hq]
    · simp only [if_neg hq]
      cases env.collection with
      | none => exact ⟨rfl, rfl, rfl⟩
      | some coll =>
        by_cases hc : coll.count = 0
        · simp [hc]
        · simp only [if_neg hc]
          cases he : env.embed q with
          | none => simp [addEmbedCall]
          | some v =>
            by_cases hr : (env.chromaQuery v nr).isEmpty
            · simp [hr, addEmbedCall, addChromaCall]
            · simp [hr, addEmbedCall, addChromaCall]

/-- The orchestrator's behaviour once the first response is a matching
tool-use block, folded to the tool run followed by the unconditional
second call. -/
theorem perform_tool_branch {V J : Type} (env : Env V J) (uq : String) (limit : Int)
    (tuId : String) (q : Option String) (n : Option Int)
    (hfr : env.firstResponse = some (FirstResponse.toolUseResp tuId "resume_search_tool" q n)) :
    perform_claude_search_with_tool_internal env uq limit =
      (match env.secondResponse with
       | none =>
         (SearchResult.errorMsg "Error getting final response from Claude after tool use",
          toolBranchTrace env q n limit)
       | some text =>
         match env.parseJson (stripJsonFence text) with
         | some parsed => (SearchResult.successAnalysis parsed, toolBranchTrace env q n limit)
         | none =>
           (SearchResult.errorMalformedJson "LLM response was not valid JSON." text,
            toolBranchTrace env q n limit)) := by
  unfold perform_claude_search_with_tool_internal toolBranchTrace toolBranchRun
  rw [hfr]
  cases env.secondResponse with
  | none => rfl
  | some text =>
    cases env.parseJson (stripJsonFence text) with
    | none => rfl
    | some parsed => rfl

/-- The trace of a tool-branch run is `toolBranchTrace`, whichever way the
second call and the JSON parse go. -/
theorem perform_tool_branch_trace {V J : Type} (env : Env V J) (uq : String) (limit : Int)
    (tuId : String) (q : Option String) (n : Option Int)
    (hfr : env.firstResponse = some (FirstResponse.toolUseResp tuId "resume_search_tool" q n)) :
    (perform_claude_search_with_tool_internal env uq limit).2 =
      toolBranchTrace env q n limit := by
  rw [perform_tool_branch env uq limit tuId q n hfr]
  cases hs : env.secondResponse with
  | none => rfl
  | some text =>
    cases hp : env.parseJson (stripJsonFence text) with
    | none => simp [hp]
    | some parsed => simp [hp]

/-- Field values of `toolBranchTrace`: the single recorded tool invocation
carries the clamped bound, exactly two model calls happen, and the
embedding count and forwarded tool output are those of the tool run. -/
theorem toolBranchTrace_fields {V J : Type} (env : Env V J) (q : Option String)
    (n : Option Int) (limit : Int) :
    (toolBranchTrace env q n limit).toolCalls = [(q, min (n.getD 5) limit)] ∧
    (toolBranchTrace env q n limit).llmCalls = 2 ∧
    (toolBranchTrace env q n limit).embedCalls =
      (toolBranchRun env q n limit).2.embedCalls ∧
    (toolBranchTrace env q n limit).secondCallToolOutput =
      some (toolBranchRun env q n limit).1 := by
  have ht := resume_search_tool_trace env q (min (n.getD 5) limit)
    ⟨0, 1, [(q, min (n.getD 5) limit)], [], none⟩
  unfold toolBranchTrace toolBranchRun
  exact ⟨ht.1, by rw [ht.2.1], rfl, rfl⟩

/-- The result of a tool-branch run is decided solely by parsing the
(fence-stripped) second response. -/
theorem perform_tool_branch_result {V J : Type} (env : Env V J) (uq : String) (limit : Int)
    (tuId : String) (q : Option String) (n : Option Int) (text : String)
    (hfr : env.firstResponse = some (FirstResponse.toolUseResp tuId "resume_search_tool" q n))
    (hsr : env.secondResponse = some text) :
    (perform_claude_search_with_tool_internal env uq limit).1 =
      (match env.parseJson (stripJsonFence text) with
       | some parsed => SearchResult.successAnalysis parsed
       | none => SearchResult.errorMalformedJson "LLM response was not valid JSON." text) := by
  rw [perform_tool_branch env uq limit tuId q n hfr]
  rw [hsr]
  cases hp : env.parseJson (stripJsonFence text) <;> simp [hp]

/-- A fenced text is stripped to its trimmed body before parsing. -/
theorem stripJsonFence_fenced (body : List Char) :
    stripJsonFence (String.mk (fenceOpenChars ++ (body ++ fenceCloseChars))) =
      (String.mk body).trim := by
  unfold stripJsonFence dropRightChars
  have h1 : fenceOpenChars.isPrefixOf (fenceOpenChars ++ (body ++ fenceCloseChars)) = true := by
    rw [ List.isPrefixOf_iff_prefix]
    exact List.prefix_append _ _
  have h2 : fenceCloseChars.isSuffixOf (fenceOpenChars ++ (body ++ fenceCloseChars)) = true := by
    rw [List.isSuffixOf_iff_suffix]
    rw [← List.append_assoc]
    exact List.suffix_append _ _
  simp only [h1, h2, Bool.and_self, if_pos]
  rw [List.drop_left]
  have h3 : (body ++ fenceCloseChars).length - fenceCloseChars.length = body.length := by
    rw [List.length_append]
    omega
  rw [h3, List.take_left]

/-- A run of the tool on a non-empty query against a reachable, non-empty
collection with a successful embedding: the output is determined by
whether ChromaDB returned any records, and exactly one embedding call and
one `collection.query` call (with the given bound) are recorded. -/
theorem resume_search_tool_run {V J : Type} (env : Env V J) (q : String) (nr : Int)
    (t : Trace) (coll : Collection) (v : V)
    (hq : q ≠ "") (hcoll : env.collection = some coll) (hc : coll.count ≠ 0)
    (hv : env.embed q = some v) :
    resume_search_tool env (some q) nr t =
      (if (env.chromaQuery v nr).isEmpty then
        (ToolOutput.noCandidatesMsg, addChromaCall (addEmbedCall t) nr)
      else
        (ToolOutput.candidates ((env.chromaQuery v nr).map recordToCandidate),
         addChromaCall (addEmbedCall t) nr)) := by
  unfold resume_search_tool
  simp only [hcoll, hv, if_neg hq, if_neg hc]

/-! ### C1 -/

/-- C1: in the orchestrator's first round, the num_results actually passed
to the retrieval tool is `min(model-supplied num_results or default 5,
caller's num_profiles_to_retrieve)`: it never exceeds the caller's bound,
and a missing model value falls back to 5, itself capped by the caller's
bound. -/
theorem tool_call_count_clamped {V J : Type} (env : Env V J) (uq : String) (limit : Int)
    (tuId : String) (q : Option String) (n : Option Int)
    (hfr : env.firstResponse = some (FirstResponse.toolUseResp tuId "resume_search_tool" q n)) :
    (perform_claude_search_with_tool_internal env uq limit).2.toolCalls =
        [(q, min (n.getD 5) limit)] ∧
    min (n.getD 5) limit ≤ limit ∧
    (n = none → min (n.getD 5) limit = min 5 limit) := by
  refine ⟨?_, min_le_right _ _, fun hn => by rw [hn]; rfl⟩
  rw [perform_tool_branch_trace env uq limit tuId q n hfr]
  exact (toolBranchTrace_fields env q n limit).1

/-- C1 witness: caller limit 5, model requests 12 — the executed tool call
uses 5. -/
theorem tool_call_count_clamped_witness :
    (perform_claude_search_with_tool_internal envC1 "find a senior engineer" 5).2.toolCalls =
        [(some "senior engineer", 5)] ∧ (5 : Int) ≤ 5 := by
  have h := tool_call_count_clamped envC1 "find a senior engineer" 5 "tu-1"
    (some "senior engineer") (some 12) rfl
  refine ⟨?_, le_refl 5⟩
  rw [h.1]
  norm_num

/-! ### C2 -/

/-- C2 counterexample: with zero matching records the tool returns the
no-candidates marker, yet the orchestrator still issues a second model
call (llmCalls = 2) and here even ends in an error result (the second
response is not JSON) — there is no short-circuit and no canned success
result. -/
theorem no_candidates_short_circuit_cex :
    (resume_search_tool envC2 (some "rust developer") 5 Trace.empty).1 =
        ToolOutput.noCandidatesMsg ∧
    (perform_claude_search_with_tool_internal envC2 "find rust developers" 7).2.llmCalls = 2 ∧
    (perform_claude_search_with_tool_internal envC2 "find rust developers" 7).1 =
        SearchResult.errorMalformedJson "LLM response was not valid JSON."
          "There are no matches." :=
  ⟨rfl, rfl, rfl⟩

/-- C2 (amended): when retrieval returns the no-candidates marker the
orchestrator does not short-circuit — the marker (a message value, not an
error) is forwarded as the tool result of an unconditionally issued
second model call, and the final outcome is whatever that second
response parses to. -/
theorem no_candidates_forwarded_to_second_call {V J : Type} (env : Env V J) (uq : String)
    (limit : Int) (tuId : String) (q : String) (n : Option Int) (text : String)
    (coll : Collection) (v : V)
    (hfr : env.firstResponse = some (FirstResponse.toolUseResp tuId "resume_search_tool" (some q) n))
    (hq : q ≠ "") (hcoll : env.collection = some coll) (hc : coll.count ≠ 0)
    (hv : env.embed q = some v)
    (hres : env.chromaQuery v (min (n.getD 5) limit) = [])
    (hsr : env.secondResponse = some text) :
    (perform_claude_search_with_tool_internal env uq limit).2.llmCalls = 2 ∧
    (perform_claude_search_with_tool_internal env uq limit).2.secondCallToolOutput =
        some ToolOutput.noCandidatesMsg ∧
    (perform_claude_search_with_tool_internal env uq limit).1 =
      (match env.parseJson (stripJsonFence text) with
       | some parsed => SearchResult.successAnalysis parsed
       | none => SearchResult.errorMalformedJson "LLM response was not valid JSON." text) := by
  have htool : toolBranchRun env (some q) n limit =
      (ToolOutput.noCandidatesMsg,
       addChromaCall (addEmbedCall ⟨0, 1, [(some q, min (n.getD 5) limit)], [], none⟩)
         (min (n.getD 5) limit)) := by
    unfold toolBranchRun
    rw [resume_search_tool_run env q (min (n.getD 5) limit) _ coll v hq hcoll hc hv]
    rw [hres]
    rfl
  refine ⟨?_, ?_, perform_tool_branch_result env uq limit tuId (some q) n text hfr hsr⟩
  · rw [perform_tool_branch_trace env uq limit tuId (some q) n hfr]
    exact (toolBranchTrace_fields env (some q) n limit).2.1
  · rw [perform_tool_branch_trace env uq limit tuId (some q) n hfr]
    rw [(toolBranchTrace_fields env (some q) n limit).2.2.2]
    rw [htool]

/-- C2 amended-claim witness at the concrete environment. -/
theorem no_candidates_forwarded_to_second_call_witness :
    (perform_claude_search_with_tool_internal envC2 "find rust developers" 7).2.llmCalls = 2 ∧
    (perform_claude_search_with_tool_internal envC2 "find rust developers" 7).2.secondCallToolOutput =
        some ToolOutput.noCandidatesMsg := by
  have h := no_candidates_forwarded_to_second_call envC2 "find rust developers" 7 "tu-2"
    "rust developer" none "There are no matches." collMain 0 rfl (by decide) rfl (by decide)
    rfl rfl rfl
  exact ⟨h.1, h.2.1⟩

/-! ### C3 -/

/-- C3: the second response is parsed only after fence stripping (a text
wrapped in the ```json fences is stripped to its trimmed body), and a
(stripped) text that fails JSON parsing yields the distinct
malformed-JSON error result carrying the raw, unstripped response text
verbatim — while a text that parses yields the success result; no
exception propagates. -/
theorem malformed_json_distinct_error {V J : Type} (env : Env V J) (uq : String) (limit : Int)
    (tuId : String) (q : Option String) (n : Option Int) (text : String)
    (hfr : env.firstResponse = some (FirstResponse.toolUseResp tuId "resume_search_tool" q n))
    (hsr : env.secondResponse = some text) :
    (∀ body : List Char,
        stripJsonFence (String.mk (fenceOpenChars ++ (body ++ fenceCloseChars))) =
          (String.mk body).trim) ∧
    (env.parseJson (stripJsonFence text) = none →
        (perform_claude_search_with_tool_internal env uq limit).1 =
          SearchResult.errorMalformedJson "LLM response was not valid JSON." text) ∧
    (∀ parsed, env.parseJson (stripJsonFence text) = some parsed →
        (perform_claude_search_with_tool_internal env uq limit).1 =
          SearchResult.successAnalysis parsed) := by
  refine ⟨stripJsonFence_fenced, fun hp => ?_, fun parsed hp => ?_⟩
  · rw [perform_tool_branch_result env uq limit tuId q n text hfr hsr, hp]
  · rw [perform_tool_branch_result env uq limit tuId q n text hfr hsr, hp]

/-- C3 witness: a fenced, invalid-JSON second response produces exactly
the malformed-JSON error result with the raw text verbatim. -/
theorem malformed_json_distinct_error_witness :
    (perform_claude_search_with_tool_internal envC3 "find seniors" 7).1 =
      SearchResult.errorMalformedJson "LLM response was not valid JSON."
        "```json this is not valid json ```" := by
  have h := malformed_json_distinct_error envC3 "find seniors" 7 "tu-3" (some "senior") none
    "```json this is not valid json ```" rfl rfl
  exact h.2.1 rfl

/-! ### C4 -/

/-- C4 counterexample: on an end_turn first response the orchestrator
returns only `status=success` with a `message` key — not an
AnalysisResult shape (`analysis_data`) with an empty candidate list — and
the API handler therefore rejects the outcome with HTTP 500, so the
caller receives an error, not a well-formed AnalysisResult. -/
theorem direct_answer_wrapped_cex :
    (perform_claude_search_with_tool_internal envC4 "hello" 7).1 =
        SearchResult.successMessage "General hiring advice; no search was needed." ∧
    (∀ j : Nat, (perform_claude_search_with_tool_internal envC4 "hello" 7).1 ≠
        SearchResult.successAnalysis j) ∧
    (search_candidates envC4 ⟨"hello", 7⟩).1 = ApiOutcome.httpError 500 :=
  ⟨rfl, fun _ h => SearchResult.noConfusion h, rfl⟩

/-- C4 (amended): on an end_turn first response the orchestrator treats
the outcome as success but returns the plain text under a `message` key
with no `analysis_data` and no candidate list; the HTTP handler, which
requires `analysis_data` for a 200, then fails the request with an
HTTP 500 — the caller receives an error, not an AnalysisResult. -/
theorem direct_answer_returns_message_only {V J : Type} (env : Env V J) (uq : String)
    (limit : Int) (text : String) (coll : Collection)
    (hfr : env.firstResponse = some (FirstResponse.endTurn text))
    (hcoll : env.collection = some coll) (hc : coll.count ≠ 0) :
    (perform_claude_search_with_tool_internal env uq limit).1 =
        SearchResult.successMessage text ∧
    (search_candidates env ⟨uq, limit⟩).1 = ApiOutcome.httpError 500 := by
  have hperf : perform_claude_search_with_tool_internal env uq limit =
      (SearchResult.successMessage text, ⟨0, 1, [], [], none⟩) := by
    unfold perform_claude_search_with_tool_internal
    rw [hfr]
  refine ⟨by rw [hperf], ?_⟩
  unfold search_candidates
  rw [hcoll]
  simp only [if_neg hc, hperf]

/-- C4 amended-claim witness at the concrete environment. -/
theorem direct_answer_returns_message_only_witness :
    (perform_claude_search_with_tool_internal envC4 "hello" 7).1 =
        SearchResult.successMessage "General hiring advice; no search was needed." ∧
    (search_candidates envC4 ⟨"hello", 7⟩).1 = ApiOutcome.httpError 500 :=
  direct_answer_returns_message_only envC4 "hello" 7
    "General hiring advice; no search was needed." collMain rfl rfl (by decide)

/-! ### C5 -/

/-- C5 counterexample: a candidate whose stored resume text has 2000
characters is forwarded to the second model call with its full
2000-character `raw_resume_text`, unmodified — no 1500-character
truncation and no appended marker. -/
theorem raw_text_truncation_cex :
    (perform_claude_search_with_tool_internal envC5 "find java developers" 7).2.secondCallToolOutput =
        some (ToolOutput.candidates
          [⟨"dev-002", "Bob Bannon", "Software Engineer", "Mid", "SaaS", "Java", longText⟩]) ∧
    1500 < longText.length := by
  refine ⟨rfl, ?_⟩
  show 1500 < (List.replicate 2000 'a').length
  rw [List.length_replicate]
  norm_num

/-- C5 (amended): no truncation is applied anywhere on the retrieval
path — each candidate forwarded to the second model call carries
`raw_resume_text` equal to the full stored document, whatever its
length (the constant 1500 appears in the source only as the second
call's max_tokens). -/
theorem raw_text_forwarded_untruncated {V J : Type} (env : Env V J) (uq : String)
    (limit : Int) (tuId : String) (q : String) (n : Option Int)
    (coll : Collection) (v : V)
    (hfr : env.firstResponse = some (FirstResponse.toolUseResp tuId "resume_search_tool" (some q) n))
    (hq : q ≠ "") (hcoll : env.collection = some coll) (hc : coll.count ≠ 0)
    (hv : env.embed q = some v)
    (hres : (env.chromaQuery v (min (n.getD 5) limit)).isEmpty = false) :
    (perform_claude_search_with_tool_internal env uq limit).2.secondCallToolOutput =
        some (ToolOutput.candidates
          ((env.chromaQuery v (min (n.getD 5) limit)).map recordToCandidate)) ∧
    (∀ r : StoredRecord, (recordToCandidate r).raw_resume_text = r.document) := by
  refine ⟨?_, fun r => rfl⟩
  rw [perform_tool_branch_trace env uq limit tuId (some q) n hfr]
  rw [(toolBranchTrace_fields env (some q) n limit).2.2.2]
  have htool : toolBranchRun env (some q) n limit =
      (ToolOutput.candidates ((env.chromaQuery v (min (n.getD 5) limit)).map recordToCandidate),
       addChromaCall (addEmbedCall ⟨0, 1, [(some q, min (n.getD 5) limit)], [], none⟩)
         (min (n.getD 5) limit)) := by
    unfold toolBranchRun
    rw [resume_search_tool_run env q (min (n.getD 5) limit) _ coll v hq hcoll hc hv]
    rw [hres]
    rfl
  rw [htool]

/-- C5 amended-claim witness at the concrete environment. -/
theorem raw_text_forwarded_untruncated_witness :
    (perform_claude_search_with_tool_internal envC5 "find java developers" 7).2.secondCallToolOutput =
        some (ToolOutput.candidates ([recLong].map recordToCandidate)) :=
  (raw_text_forwarded_untruncated envC5 "find java developers" 7 "tu-5" "java developer"
    none ⟨"all_resumes", [recLong]⟩ 0 rfl (by decide) rfl (by decide) rfl rfl).1

/-! ### C6 -/

/-- C6 counterexample: a request with an empty query string is not
rejected before external calls — the run performs two LLM calls (not
zero), even though the tool itself errors on the empty query without an
embedding call. -/
theorem empty_query_external_calls_cex :
    (search_candidates envC6 ⟨"", 7⟩).2.llmCalls = 2 ∧
    (search_candidates envC6 ⟨"", 7⟩).2.embedCalls = 0 ∧
    (resume_search_tool envC6 (some "") 5 Trace.empty).1 =
        ToolOutput.errorOut "Query cannot be empty for resume search." ∧
    ¬((search_candidates envC6 ⟨"", 7⟩).2.llmCalls = 0) :=
  ⟨rfl, rfl, rfl, by decide⟩

/-- C6 (amended): the retrieval tool does reject an empty (or missing)
query with an error value before any embedding call — its embedding count
is untouched — but the request is not rejected before external calls:
the orchestrator issues the first model call unconditionally, and when
the model's tool invocation carries an empty query the tool error is fed
back and a second model call is still issued, for a total of two LLM
calls and zero embedding calls. -/
theorem empty_query_tool_error_but_llm_called {V J : Type} (env : Env V J) (uq : String)
    (limit : Int) (tuId : String) (n : Option Int) (nr : Int) (t : Trace) (text : String)
    (hfr : env.firstResponse = some (FirstResponse.toolUseResp tuId "resume_search_tool" (some "") n))
    (hsr : env.secondResponse = some text) :
    resume_search_tool env (some "") nr t =
        (ToolOutput.errorOut "Query cannot be empty for resume search.", t) ∧
    (perform_claude_search_with_tool_internal env uq limit).2.llmCalls = 2 ∧
    (perform_claude_search_with_tool_internal env uq limit).2.embedCalls = 0 := by
  refine ⟨rfl, ?_, ?_⟩
  · rw [perform_tool_branch_trace env uq limit tuId (some "") n hfr]
    exact (toolBranchTrace_fields env (some "") n limit).2.1
  · rw [perform_tool_branch_trace env uq limit tuId (some "") n hfr]
    rw [(toolBranchTrace_fields env (some "") n limit).2.2.1]
    rfl

/-- C6 amended-claim witness at the concrete environment. -/
theorem empty_query_tool_error_but_llm_called_witness :
    (perform_claude_search_with_tool_internal envC6 "" 7).2.llmCalls = 2 ∧
    (perform_claude_search_with_tool_internal envC6 "" 7).2.embedCalls = 0 :=
  (empty_query_tool_error_but_llm_called envC6 "" 7 "tu-6" none 5 Trace.empty
    "the tool reported an empty query" rfl rfl).2

/-! ### C7 -/

/-- C7 counterexample: a request with num_results = 100 reaches the
retrieval tool with the bound 100 — far above the supposed application
ceiling of 15 — so the caller-supplied result_limit is accepted
unbounded. -/
theorem result_limit_ceiling_cex :
    (search_candidates envC7 ⟨"find many candidates", 100⟩).2.toolCalls =
        [(some "any role", 100)] ∧
    ¬((100 : Int) ≤ 15) :=
  ⟨rfl, by decide⟩

/-- C7 (amended): no application ceiling is enforced anywhere — the
pydantic request model declares `num_results` as a plain int and the
handler passes it through unmodified, so whenever the model's requested
num_results is at least the caller's value, the executed retrieval bound
equals the caller's `num_results` exactly, however large (the tool
schema's "Max 15" is description text only). -/
theorem caller_limit_passed_through_uncapped {V J : Type} (env : Env V J)
    (req : SearchRequest) (coll : Collection) (tuId : String) (q : Option String) (m : Int)
    (hcoll : env.collection = some coll) (hc : coll.count ≠ 0)
    (hfr : env.firstResponse =
      some (FirstResponse.toolUseResp tuId "resume_search_tool" q (some m)))
    (hm : req.num_results ≤ m) :
    (search_candidates env req).2.toolCalls = [(q, req.num_results)] := by
  unfold search_candidates
  rw [hcoll]
  simp only [if_neg hc]
  have htr := perform_tool_branch_trace env req.query req.num_results tuId q (some m) hfr
  have hfield := (toolBranchTrace_fields env q (some m) req.num_results).1
  have hmin : min ((some m).getD 5) req.num_results = req.num_results :=
    min_eq_right hm
  cases hres : (perform_claude_search_with_tool_internal env req.query req.num_results).1 with
  | successAnalysis parsed =>
    simp only [hres]
    rw [htr, hfield, hmin]
  | successMessage message =>
    simp only [hres]
    rw [htr, hfield, hmin]
  | errorMsg message =>
    simp only [hres]
    rw [htr, hfield, hmin]
  | errorMalformedJson message raw =>
    simp only [hres]
    rw [htr, hfield, hmin]

/-- C7 amended-claim witness: caller value 100 is used as the executed
bound. -/
theorem caller_limit_passed_through_uncapped_witness :
    (search_candidates envC7 ⟨"find many candidates", 100⟩).2.toolCalls =
        [(some "any role", 100)] :=
  caller_limit_passed_through_uncapped envC7 ⟨"find many candidates", 100⟩ collMain "tu-7"
    (some "any role") 100 rfl (by decide) rfl (by decide)

/-! ### C8 -/

/-- Building the metadata dictionary always raises NameError for
`metadata`: the first name of the dictionary literal that is unbound in
the function scope is `metadata`. -/
theorem buildMetadataEntry_raises (resume : ResumeData) :
    buildMetadataEntry resume = PyResult.raised (nameErrorMsg "metadata") := rfl

/-- C8: when a record with a given id is already present in the
`all_resumes` collection, running `initialize_database` again is a
complete no-op: the already-populated check fires, the store (hence the
record for that id) is left unchanged, no exception is raised, and zero
embedding calls are made — so a second insertion of the same id can
neither overwrite, duplicate, nor re-embed it. -/
theorem upsert_idempotent_by_id {V : Type} (client : ChromaClient)
    (embed : String → Option V) (resumes_data : List ResumeData)
    (coll : Collection) (r : StoredRecord)
    (hc : client.getCollection COLLECTION_NAME = some coll)
    (hr : r ∈ coll.records) :
    (initDatabase client embed resumes_data).exc = none ∧
    (initDatabase client embed resumes_data).client = client ∧
    (initDatabase client embed resumes_data).trace.embedCalls = 0 := by
  have hfind : client.collections.find? (fun c => c.name == COLLECTION_NAME) = some coll := hc
  have hmem : coll ∈ client.collections := List.mem_of_find?_eq_some hfind
  have hlen : client.countCollections > 0 :=
    List.length_pos.mpr (List.ne_nil_of_mem hmem)
  have hgoc : client.getOrCreateCollection COLLECTION_NAME = (client, coll) := by
    unfold ChromaClient.getOrCreateCollection
    rw [hfind]
  have hcount : coll.count > 0 := List.length_pos.mpr (List.ne_nil_of_mem hr)
  have hskip : skipInit client = true := by
    unfold skipInit
    rw [if_pos hlen, hgoc, if_pos hcount]
  have hafter : clientAfterCheck client = client := by
    unfold clientAfterCheck
    rw [if_pos hlen, hgoc]
  have hmain : initDatabase client embed resumes_data = ⟨none, client, Trace.empty⟩ := by
    unfold initDatabase
    rw [hskip, hafter]
    rfl
  exact ⟨by rw [hmain], by rw [hmain], by rw [hmain]; rfl⟩

/-- C8 witness: re-running initialization over a store already holding
dev-001 leaves the store byte-identical and performs zero embedding
calls. -/
theorem upsert_idempotent_by_id_witness :
    (initDatabase clientC8 (fun _ : String => some (0 : Nat)) [resumeAlice]).client = clientC8 ∧
    (initDatabase clientC8 (fun _ : String => some (0 : Nat)) [resumeAlice]).trace.embedCalls
      = 0 := by
  have h := upsert_idempotent_by_id clientC8 (fun _ : String => some (0 : Nat)) [resumeAlice]
    collMain recAlice rfl (by simp [collMain])
  exact ⟨h.2.1, h.2.2⟩

/-! ### C9 -/

/-- C9: the module-level ChromaDB setup of core_logic.py always ends in
an uncaught NameError for `DATABASE_DIR`: whether or not the
`chromadb.Client()` call itself raises, the try body fails (its
`get_or_create_collection(name=COLLECTION_NAME)` line references
`COLLECTION_NAME` before its assignment at line 68), and the except
handler then references `DATABASE_DIR`, which is bound nowhere in the
module — so importing the module never succeeds and nothing defined in
it is reachable. -/
theorem core_logic_import_always_fails :
    (∀ b : Bool, chromaSetup b = Except.error (nameErrorMsg "DATABASE_DIR")) ∧
    runStmts coreLogicTopScope (chromaSetupTryBody false) =
      Except.error (nameErrorMsg "COLLECTION_NAME") := by
  refine ⟨fun b => ?_, rfl⟩
  cases b <;> rfl

/-! ### C10 -/

/-- C10 counterexample: on an empty collection with one resume whose
raw_text is non-empty and whose embedding would succeed,
`initialize_database` aborts with NameError `DATABASE_DIR` — not with
NameError `metadata` — and makes zero embedding calls, so no record is
ever "processed" up to the metadata-construction step. -/
theorem init_db_metadata_nameError_cex :
    (initDatabase clientC10 (fun _ : String => some (0 : Nat)) [resumeAlice]).exc =
        some (nameErrorMsg "DATABASE_DIR") ∧
    ¬((initDatabase clientC10 (fun _ : String => some (0 : Nat)) [resumeAlice]).exc =
        some (nameErrorMsg "metadata")) ∧
    (initDatabase clientC10 (fun _ : String => some (0 : Nat)) [resumeAlice]).trace.embedCalls
        = 0 ∧
    resumeAlice.raw_text ≠ "" :=
  ⟨rfl, by decide, rfl, by decide⟩

/-- C10 (amended): on every run against an empty `all_resumes`
collection, `initialize_database` aborts before the per-resume loop with
NameError `DATABASE_DIR`: the unprotected line-115 statement
`raw_resumes_dir = os.path.join(DATABASE_DIR, "raw_resumes")` references
the nowhere-assigned `DATABASE_DIR`. So no record is ever added to an
empty collection, no embedding call is made, and the
metadata-construction step at lines 148-155 — which, being a reference
to the unbound name `metadata`, would itself raise NameError had it been
reached — is unreachable. -/
theorem init_db_aborts_database_dir_nameError {V : Type} (client : ChromaClient)
    (embed : String → Option V) (resumes_data : List ResumeData) (coll : Collection)
    (hc : client.getCollection COLLECTION_NAME = some coll)
    (hempty : coll.records = []) :
    (∀ resume : ResumeData,
        buildMetadataEntry resume = PyResult.raised (nameErrorMsg "metadata")) ∧
    (initDatabase client embed resumes_data).exc = some (nameErrorMsg "DATABASE_DIR") ∧
    (initDatabase client embed resumes_data).client = client ∧
    (initDatabase client embed resumes_data).trace.embedCalls = 0 := by
  have hfind : client.collections.find? (fun c => c.name == COLLECTION_NAME) = some coll := hc
  have hmem : coll ∈ client.collections := List.mem_of_find?_eq_some hfind
  have hlen : client.countCollections > 0 :=
    List.length_pos.mpr (List.ne_nil_of_mem hmem)
  have hgoc : client.getOrCreateCollection COLLECTION_NAME = (client, coll) := by
    unfold ChromaClient.getOrCreateCollection
    rw [hfind]
  have hskip : skipInit client = false := by
    unfold skipInit
    rw [if_pos hlen, hgoc]
    simp [Collection.count, hempty]
  have hafter : clientAfterCheck client = client := by
    unfold clientAfterCheck
    rw [if_pos hlen, hgoc]
  have hstep : rawResumesDirStep = some "DATABASE_DIR" := rfl
  have hmain : initDatabase client embed resumes_data =
      ⟨some (nameErrorMsg "DATABASE_DIR"), client, Trace.empty⟩ := by
    unfold initDatabase
    rw [hskip]
    simp only [Bool.false_eq_true, if_false]
    rw [hstep, hafter]
  exact ⟨buildMetadataEntry_raises, by rw [hmain], by rw [hmain], by rw [hmain]; rfl⟩

/-- C10 amended-claim witness: on the concrete empty store the run
aborts with the `DATABASE_DIR` NameError and the store is unchanged. -/
theorem init_db_aborts_database_dir_nameError_witness :
    (initDatabase clientC10 (fun _ : String => some (0 : Nat)) [resumeAlice]).exc =
        some (nameErrorMsg "DATABASE_DIR") ∧
    (initDatabase clientC10 (fun _ : String => some (0 : Nat)) [resumeAlice]).client =
        clientC10 := by
  have h := init_db_aborts_database_dir_nameError clientC10 (fun _ : String => some (0 : Nat))
    [resumeAlice] ⟨"all_resumes", []⟩ rfl rfl
  exact ⟨h.2.1, h.2.2.1⟩

end TalentMVP
